import Mathlib

/-!
Verification model of `bioconda_utils/anaconda.py` (class `RepoData`).

The Python module builds a unified table of package records across a fixed
set of anaconda channels and platforms, persists/restores it from a cache
file, and answers read-only queries over it.  We embed the table as a list
of `PackageRecord`, Python exceptions as an explicit `Err` type returned
through `Except`, and the HTTP layer as an injected function from URL to
response.  Functions that perform network requests additionally return the
list of URLs they requested, so that claims about the absence or repetition
of network traffic are expressible.
-/

/-- Python exceptions raised by the module, as an explicit error type.
`httpError` corresponds to `requests.HTTPError` built at anaconda.py line
153 and carries the response status code, the reason text and the URL;
`valueError`, `typeError` and `keyError` correspond to the builtin
exceptions of those names; `jsonError` stands for a failure of
`response.json()` to parse the body. -/
inductive Err where
  | valueError (msg : String)
  | typeError (msg : String)
  | keyError (key : String)
  | httpError (status_code : Nat) (reason : String) (url : String)
  | jsonError (msg : String)
deriving Repr, DecidableEq

/-- One value of the `packages` mapping of a repodata document: the four
fields that `RepoData.__init__` loads (`_load_columns`, anaconda.py line
69). -/
structure PackageMeta where
  build : String
  build_number : Nat
  name : String
  version : String
deriving Repr, DecidableEq

/-- A parsed repodata.json document as `RepoData.__init__` consumes it:
the `subdir` entry of its `info` block (line 100) and the `packages`
mapping from package key (file name) to metadata block (line 96). -/
structure Repodata where
  info_subdir : String
  packages : List (String × PackageMeta)
deriving Repr, DecidableEq

/-- An HTTP response as `fetch_repodata` consumes it: status code, reason
text, and the result of parsing the body as JSON (consulted only on
status 200). -/
structure HttpResp where
  status_code : Nat
  reason : String
  json : Except Err Repodata

/-- One row of the internal dataframe `self.df`: the four loaded columns
plus the three columns stamped per fetch batch (anaconda.py lines 96-100).
The pandas row index (the package key) is not semantically used by any
query; it is modelled separately where it is observable (persistence). -/
structure PackageRecord where
  build : String
  build_number : Nat
  name : String
  version : String
  channel : String
  platform : String
  subdir : String
deriving Repr, DecidableEq

/-- Class attribute `RepoData.platforms` (anaconda.py line 74). -/
def RepoData.platforms : List String := ["linux", "osx", "noarch"]

/-- Class attribute `RepoData.channels` (anaconda.py line 76). -/
def RepoData.channels : List String := ["conda-forge", "bioconda", "defaults"]

/-- `REPODATA_URL` (anaconda.py line 65) instantiated at a channel and
subdir. -/
def repodata_url (channel subdir : String) : String :=
  "https://conda.anaconda.org/" ++ channel ++ "/" ++ subdir ++ "/repodata.json"

/-- `REPODATA_DEFAULTS_URL` (anaconda.py line 67) instantiated at a
subdir; the template has no channel segment. -/
def repodata_defaults_url (subdir : String) : String :=
  "https://repo.anaconda.com/pkgs/main/" ++ subdir ++ "/repodata.json"

/-- Message of the `ValueError` raised by `platform2subdir`
(anaconda.py lines 125-126). -/
def unsupportedMsg : String :=
  "Unsupported platform: bioconda only supports linux, osx and noarch."

/-- Embeds `RepoData.platform2subdir` (anaconda.py lines 116-126): the
closed mapping linux to linux-64, osx to osx-64, noarch to noarch; any
other value raises `ValueError`. -/
def RepoData.platform2subdir (platform : String) : Except Err String :=
  if platform == "linux" then .ok "linux-64"
  else if platform == "osx" then .ok "osx-64"
  else if platform == "noarch" then .ok "noarch"
  else .error (.valueError unsupportedMsg)

/-- Embeds `RepoData.native_platform` (anaconda.py lines 108-114), with
`sys.platform` passed explicitly. -/
def RepoData.native_platform (sys_platform : String) : Except Err String :=
  if sys_platform.startsWith "linux" then .ok "linux"
  else if sys_platform.startsWith "darwin" then .ok "osx"
  else .error (.valueError "Running on unsupported platform")

/-- URL resolution performed by `fetch_repodata` (anaconda.py lines
143-150): pick the defaults template for channel `defaults`, the ordinary
template otherwise, and instantiate it at `platform2subdir platform`.  In
the source the template is chosen before the subdir is computed; since
choosing a template has no effect, resolving the subdir first is
equivalent and lets the `ValueError` of `platform2subdir` short-circuit
here as it does inside `str.format` in the source. -/
def resolve_url (channel platform : String) : Except Err String :=
  match RepoData.platform2subdir platform with
  | .error e => .error e
  | .ok subdir =>
      .ok (if channel == "defaults" then repodata_defaults_url subdir
           else repodata_url channel subdir)

/-- Embeds `RepoData.fetch_repodata` (anaconda.py lines 128-157).  The
first component lists the URLs actually requested: empty when URL
resolution already failed (`requests.get` is never reached), otherwise the
single resolved URL.  A non-200 status raises `HTTPError` carrying status
code, reason and URL (lines 152-155); on 200 the parsed body is
returned. -/
def RepoData.fetch_repodata (http : String → HttpResp) (channel platform : String) :
    List String × Except Err Repodata :=
  match resolve_url channel platform with
  | .error e => ([], .error e)
  | .ok url =>
      let r := http url
      if r.status_code = 200 then ([url], r.json)
      else ([url], .error (.httpError r.status_code r.reason url))

/-- Embeds the per-batch normalization of `RepoData.__init__` (anaconda.py
lines 96-100): one record per value of the document's `packages` mapping,
keeping the four loaded fields and stamping every record of the batch with
the iterated channel, the iterated platform and the document's own
`info.subdir`. -/
def buildBatch (channel platform : String) (repo : Repodata) : List PackageRecord :=
  repo.packages.map (fun kv =>
    { build := kv.2.build
      build_number := kv.2.build_number
      name := kv.2.name
      version := kv.2.version
      channel := channel
      platform := platform
      subdir := repo.info_subdir })

/-- The iteration order of the nested loops of `RepoData.__init__`
(anaconda.py lines 92-93): for each channel, for each platform. -/
def configPairs : List (String × String) :=
  RepoData.channels.foldr
    (fun c acc => RepoData.platforms.map (fun p => (c, p)) ++ acc) []

/-- The fetch-and-concatenate loop of `RepoData.__init__` (anaconda.py
lines 91-103) over an explicit list of (channel, platform) pairs.  The
first component is the request log; a failed fetch aborts the loop
immediately (the Python exception propagates), so nothing after the first
failure is requested and no table is produced. -/
def buildTableAux (http : String → HttpResp) :
    List (String × String) → List String × Except Err (List PackageRecord)
  | [] => ([], .ok [])
  | (c, p) :: rest =>
      match RepoData.fetch_repodata http c p with
      | (log, .error e) => (log, .error e)
      | (log, .ok doc) =>
          match buildTableAux http rest with
          | (log2, .error e) => (log ++ log2, .error e)
          | (log2, .ok dfs) => (log ++ log2, .ok (buildBatch c p doc ++ dfs))

/-- The network build path of `RepoData.__init__`: all configured
(channel, platform) pairs in loop order. -/
def buildTable (http : String → HttpResp) :
    List String × Except Err (List PackageRecord) :=
  buildTableAux http configPairs

/-- The process-wide singleton state: the allocation counter (modelling
object identity) and `RepoData.__instance` (anaconda.py line 78).  The
cached instance is a pair of its identity and its `df` attribute, `none`
when `__init__` has never completed on it. -/
structure RState where
  nextId : Nat
  inst : Option (Nat × Option (List PackageRecord))
deriving Repr, DecidableEq

/-- The body of `RepoData.__init__` on the network path (anaconda.py lines
90-106, with `cache=None` so the cache branch at lines 86-88 is skipped):
runs the build, and on success sets `self.df`; on failure the exception
propagates and the `df` attribute keeps its previous state.  `st1` is the
singleton state left by `__new__`, `id` the identity of the instance being
initialised, `dfOld` its current `df` attribute. -/
def repoDataInitStep (st1 : RState) (id : Nat) (dfOld : Option (List PackageRecord))
    (http : String → HttpResp) :
    RState × List String × Except Err (Nat × List PackageRecord) :=
  match buildTable http with
  | (log, .error e) => (⟨st1.nextId, some (id, dfOld)⟩, log, .error e)
  | (log, .ok df) => (⟨st1.nextId, some (id, some df)⟩, log, .ok (id, df))

/-- Embeds one construction request `RepoData(...)` under Python call
semantics.  `type.__call__` first invokes `RepoData.__new__(cls, ...)`
with the call's arguments; `__new__` is defined at anaconda.py line 79 to
accept no argument beyond `cls`, so any call passing a `cache` argument
raises `TypeError` before the body of `__new__` runs and leaves the state
untouched.  A call without arguments runs `__new__` (which returns the
cached instance, or allocates and caches a fresh one, lines 81-83) and
then always runs `__init__(self)` with its default `cache=None`
(line 85), rebuilding `self.df` from the network.  Returns the new
singleton state, the request log of the call, and the call's outcome
(identity and table of the returned instance, or the raised error). -/
def repoDataCall (st : RState) (cacheArg : Option String) (http : String → HttpResp) :
    RState × List String × Except Err (Nat × List PackageRecord) :=
  match cacheArg with
  | some _ =>
      (st, [], .error (.typeError "new got an unexpected keyword argument cache"))
  | none =>
      match st.inst with
      | some (i, d) => repoDataInitStep st i d http
      | none => repoDataInitStep ⟨st.nextId + 1, some (st.nextId, none)⟩ st.nextId none http

/-- Python truthiness of the optional `version` argument of
`get_channels`: `if version:` is false for `None` and for the empty
string. -/
def truthy : Option String → Bool
  | none => false
  | some s => !(s == "")

/-- Python truthiness of the optional `build_number` argument of
`get_channels`: `if build_number:` is false for `None` and for `0`. -/
def truthyNum : Option Nat → Bool
  | none => false
  | some n => !(n == 0)

/-- The row predicate accumulated in `selection` by `RepoData.get_channels`
(anaconda.py lines 177-181): equality on `name`, then equality on
`version` only when the argument is truthy (`if version:`), then equality
on `build_number` only when that argument is truthy
(`if build_number:`). -/
def channelsSel (name : String) (version : Option String) (build_number : Option Nat)
    (r : PackageRecord) : Bool :=
  (r.name == name)
    && (if truthy version then r.version == version.getD "" else true)
    && (if truthyNum build_number then r.build_number == build_number.getD 0 else true)

/-- Embeds `RepoData.get_channels` (anaconda.py lines 174-183): filter the
table by `channelsSel` and return `set(packages.channel)`, modelled as the
deduplicated list of channel values of the matching rows. -/
def RepoData.get_channels (df : List PackageRecord) (name : String)
    (version : Option String) (build_number : Option Nat) : List String :=
  ((df.filter (channelsSel name version build_number)).map (fun r => r.channel)).dedup

/-- The filtering that claim C6 (and spec section 4.3) asserts for
`get_channels`: every provided constraint, including `build_number = 0`,
filters by exact equality.  Stated from the claim's words, for comparison
with the implementation. -/
def get_channels_claimed (df : List PackageRecord) (name : String)
    (version : Option String) (build_number : Option Nat) : List String :=
  ((df.filter (fun r =>
      (r.name == name)
        && (match version with | some v => r.version == v | none => true)
        && (match build_number with | some b => r.build_number == b | none => true))).map
    (fun r => r.channel)).dedup

/-- Embeds `RepoData.get_versions` (anaconda.py lines 159-172): restrict
to rows of the given name, group by `version`, and for each version
collect `list(set(platforms))`, modelled as the deduplicated platform
list.  (pandas `groupby` sorts the group keys; no claim depends on the
order of the returned entries, so the groups are listed here in first-
occurrence order of the version values.) -/
def RepoData.get_versions (df : List PackageRecord) (name : String) :
    List (String × List String) :=
  let packages := df.filter (fun r => r.name == name)
  ((packages.map (fun r => r.version)).dedup).map
    (fun v => (v, ((packages.filter (fun r => r.version == v)).map
      (fun r => r.platform)).dedup))

/-- Embeds `RepoData.get_latest_versions` (anaconda.py lines 185-191).
The source selects only the `version` column of the channel-filtered
frame — a Series whose index holds the package keys — and then calls
`.groupby('name')` on it.  A Series resolves a string grouper against its
index levels only; the index is unnamed (and carries package keys, not
names), so pandas raises `KeyError('name')` before any aggregation runs.
Even if grouping succeeded, the function has no `return` statement: the
aggregated result is bound to the local `vers` and discarded, so the
caller would receive `None`, never a mapping. -/
def RepoData.get_latest_versions (df : List PackageRecord) (channel : String) :
    Except Err (List (String × String)) :=
  let _packages := (df.filter (fun r => r.channel == channel)).map (fun r => r.version)
  .error (.keyError "name")

/-- Embeds `RepoData.get_package_data` (anaconda.py lines 193-220), with
`sys.platform` passed explicitly for the `native` convenience mode.  The
tuple of filter pairs at lines 204-210 is malformed: a missing comma makes
it evaluate `('build_number', build_number)('platform', platform)`, a call
on a tuple, so every invocation raises `TypeError` as soon as the loop
header is evaluated — after the `native` handling (which can itself raise
`ValueError` on an unsupported host) but before any filter is applied or
any projection is computed.  The filter and key arguments are therefore
never consumed; their exact str-versus-collection typing is immaterial
here and they are modelled uniformly as optional lists. -/
def RepoData.get_package_data (sys_platform : String) (df : List PackageRecord)
    (key : List String) (channels : Option (List String)) (name : Option String)
    (version : Option String) (build_number : Option (List Nat))
    (platform : Option (List String)) (native : Bool) :
    Except Err (List (List String)) :=
  match (if native
         then (RepoData.native_platform sys_platform).map
           (fun np => (some ["noarch", np] : Option (List String)))
         else .ok platform) with
  | .error e => .error e
  | .ok _platform => .error (.typeError "tuple object is not callable")

/-- Split a character list at every dot. -/
def splitDots : List Char → List (List Char)
  | [] => [[]]
  | c :: cs =>
      let rest := splitDots cs
      if c = '.' then [] :: rest
      else (c :: rest.headD []) :: rest.tail

/-- Numeric value of a nonempty all-digit component; `none` otherwise. -/
def componentToNat? (cs : List Char) : Option Nat :=
  if cs.isEmpty then none
  else cs.foldl (fun acc c =>
    match acc with
    | none => none
    | some n => if c.isDigit then some (n * 10 + (c.toNat - 48)) else none) (some 0)

/-- Modelled from the spec: the external VersionComparator capability
(conda's `VersionOrder`, imported by the source but not part of this
repository).  The spec (sections 1, 4.3, glossary) requires a total order
per the ecosystem's version scheme in which numeric components compare
numerically (so "9" is below "10"), failing on input it cannot parse.  A
version string is keyed as its dot-separated numeric components; `none`
means the comparator rejects the string. -/
def versionKey (s : String) : Option (List Nat) :=
  (splitDots s.toList).mapM componentToNat?

/-- Plain lexical (codepoint) comparison of strings, the ordering Python
string comparison would use; present only to contrast with the version
comparator. -/
def lexLt : List Char → List Char → Bool
  | [], [] => false
  | [], _ :: _ => true
  | _ :: _, [] => false
  | a :: as, b :: bs => if a < b then true else if b < a then false else lexLt as bs

/-- Componentwise numeric comparison of version keys (shorter prefix
first). -/
def versionKeyLt : List Nat → List Nat → Bool
  | [], [] => false
  | [], _ :: _ => true
  | _ :: _, [] => false
  | a :: as, b :: bs => if a < b then true else if b < a then false else versionKeyLt as bs

/-- Maximum of a list of version strings under the modelled comparator:
`none` if the list is empty or any element fails to parse (the spec makes
an unparseable version a hard error for the whole query). -/
def maxVersion (vs : List String) : Option String := do
  let keyed ← vs.mapM (fun v => (versionKey v).map (fun k => (v, k)))
  match keyed with
  | [] => none
  | x :: xs => some (xs.foldl (fun b y => if versionKeyLt b.2 y.2 then y else b) x).1

/-- Modelled from the spec: the intended contract of
`latestVersionPerPackage` (spec sections 4.3 and 9), which
`RepoData.get_latest_versions` fails to implement — filter the table to
the channel, group by name, and map each name to its maximum version
under the comparator, failing on a version the comparator rejects. -/
def latestVersionPerPackage (df : List PackageRecord) (channel : String) :
    Except Err (List (String × String)) :=
  let rows := df.filter (fun r => r.channel == channel)
  ((rows.map (fun r => r.name)).dedup).mapM (fun n =>
    match maxVersion ((rows.filter (fun r => r.name == n)).map (fun r => r.version)) with
    | some v => .ok (n, v)
    | none => .error (.valueError "malformed version"))

/-- The column order of the internal dataframe: the four loaded columns
(anaconda.py line 96) followed by the three stamped columns in assignment
order (lines 98-100). -/
def df_columns : List String :=
  ["build", "build_number", "name", "version", "channel", "platform", "subdir"]

/-- The textual fields of one record in dataframe column order, as
`to_csv` writes them. -/
def renderRecord (r : PackageRecord) : List String :=
  [r.build, toString r.build_number, r.name, r.version, r.channel, r.platform, r.subdir]

/-- Embeds `self.df.to_csv(cache, sep=tab)` (anaconda.py line 106).  The
file is modelled as its rows of tab-separated fields: a header row whose
first field is empty (the pandas index is written but has no label),
then one row per record, the index key (the package key) first.  `idx`
is the dataframe's row index, one key per record. -/
def to_csv (idx : List String) (recs : List PackageRecord) : List (List String) :=
  ("" :: df_columns) :: List.zipWith (fun i r => i :: renderRecord r) idx recs

/-- Embeds `pd.read_table(cache)` (anaconda.py line 87).  No `index_col`
is passed, so every field of the header becomes an ordinary column — the
empty label of the written index column is renamed to the pandas
placeholder "Unnamed: 0" and the old index is read back as a data
column — and the remaining rows are the data, under a fresh default row
index.  Returns the column list and the data rows. -/
def read_table (lines : List (List String)) : List String × List (List String) :=
  match lines with
  | [] => ([], [])
  | header :: rows =>
      (header.map (fun h => if h == "" then "Unnamed: 0" else h), rows)

/-- A well-formed repodata document with one package, used as the reply
of the example HTTP layers below. -/
def exampleDoc : Repodata :=
  { info_subdir := "sub"
    packages := [("pkg-1.0-h0.tar.bz2", { build := "h0", build_number := 0, name := "p", version := "1.0" })] }

/-- An HTTP layer that answers every URL with status 200 and
`exampleDoc`. -/
def constGoodHttp : String → HttpResp :=
  fun _ => { status_code := 200, reason := "OK", json := .ok exampleDoc }

/-- An HTTP layer that answers every URL with status 404. -/
def http404 : String → HttpResp :=
  fun _ => { status_code := 404, reason := "Not Found", json := .ok exampleDoc }

/-- The nine URLs requested by a full build, in loop order. -/
def allUrls : List String :=
  [ "https://conda.anaconda.org/conda-forge/linux-64/repodata.json",
    "https://conda.anaconda.org/conda-forge/osx-64/repodata.json",
    "https://conda.anaconda.org/conda-forge/noarch/repodata.json",
    "https://conda.anaconda.org/bioconda/linux-64/repodata.json",
    "https://conda.anaconda.org/bioconda/osx-64/repodata.json",
    "https://conda.anaconda.org/bioconda/noarch/repodata.json",
    "https://repo.anaconda.com/pkgs/main/linux-64/repodata.json",
    "https://repo.anaconda.com/pkgs/main/osx-64/repodata.json",
    "https://repo.anaconda.com/pkgs/main/noarch/repodata.json" ]

/-- The table a full build against `constGoodHttp` produces: one record
per configured (channel, platform) pair, each stamped with that pair and
with `exampleDoc`'s own subdir. -/
def goodDF : List PackageRecord :=
  [ ⟨"h0", 0, "p", "1.0", "conda-forge", "linux", "sub"⟩,
    ⟨"h0", 0, "p", "1.0", "conda-forge", "osx", "sub"⟩,
    ⟨"h0", 0, "p", "1.0", "conda-forge", "noarch", "sub"⟩,
    ⟨"h0", 0, "p", "1.0", "bioconda", "linux", "sub"⟩,
    ⟨"h0", 0, "p", "1.0", "bioconda", "osx", "sub"⟩,
    ⟨"h0", 0, "p", "1.0", "bioconda", "noarch", "sub"⟩,
    ⟨"h0", 0, "p", "1.0", "defaults", "linux", "sub"⟩,
    ⟨"h0", 0, "p", "1.0", "defaults", "osx", "sub"⟩,
    ⟨"h0", 0, "p", "1.0", "defaults", "noarch", "sub"⟩ ]

/-- A table holding one package `p` in channel bioconda with the three
versions of the regression guard of claim C1. -/
def c1Table : List PackageRecord :=
  [ ⟨"h0", 0, "p", "1.9", "bioconda", "linux", "linux-64"⟩,
    ⟨"h1", 0, "p", "1.10", "bioconda", "linux", "linux-64"⟩,
    ⟨"h2", 0, "p", "2.0", "bioconda", "linux", "linux-64"⟩ ]

/-- A table holding one package `q` whose versions order differently under
the version comparator and under lexical string comparison. -/
def c1TableB : List PackageRecord :=
  [ ⟨"h0", 0, "q", "9", "bioconda", "linux", "linux-64"⟩,
    ⟨"h1", 0, "q", "10", "bioconda", "linux", "linux-64"⟩ ]

/-- A table with two builds of p-1.0, build numbers 0 and 1, in distinct
channels: the build_number 0 row is exactly what a build_number filter of
0 should isolate. -/
def c6Table : List PackageRecord :=
  [ ⟨"h0", 0, "p", "1.0", "bioconda", "linux", "linux-64"⟩,
    ⟨"h1", 1, "p", "1.0", "conda-forge", "linux", "linux-64"⟩ ]

/-- The record `buildBatch` produces from `exampleDoc` for the pair
(bioconda, linux). -/
def recW : PackageRecord := ⟨"h0", 0, "p", "1.0", "bioconda", "linux", "sub"⟩

/-- C1: `get_latest_versions` is claimed to return, per channel, a mapping
from each package name to its maximum version under the version
comparator.  The code does not: on the regression-guard table it raises
`KeyError` (and, lacking a `return` statement, could at best return
`None`), while the intended computation would return the mapping sending
p to "2.0" — and, on a table where comparator order and lexical order
disagree, "10" rather than the lexically larger "9". -/
theorem c1_get_latest_versions_never_returns :
    RepoData.get_latest_versions c1Table "bioconda" = .error (.keyError "name") ∧
    latestVersionPerPackage c1Table "bioconda" = .ok [("p", "2.0")] ∧
    latestVersionPerPackage c1TableB "bioconda" = .ok [("q", "10")] ∧
    (if lexLt "9".toList "10".toList then ("10" : String) else "9") = "9" :=
  ⟨rfl, rfl, rfl, rfl⟩

/-- C2: the general select query is claimed to apply its five optional
filters and return a projection without raising.  In the code the tuple
of filter pairs is malformed (a missing comma turns two entries into a
call on a tuple), so every invocation — here quantified over all
arguments, with `native` false — raises `TypeError` before any filtering
happens. -/
theorem c2_get_package_data_always_raises :
    ∀ (sys_platform : String) (df : List PackageRecord) (key : List String)
      (channels : Option (List String)) (name version : Option String)
      (build_number : Option (List Nat)) (platform : Option (List String)),
      RepoData.get_package_data sys_platform df key channels name version
          build_number platform false =
        .error (.typeError "tuple object is not callable") := by
  intros; rfl

/-- C8: `platform2subdir` maps exactly linux, osx and noarch to
linux-64, osx-64 and noarch; every other platform value yields the
`ValueError`, and `fetch_repodata` invoked with such a value returns that
error with an empty request log — the error arises during URL resolution,
before any network request is issued. -/
theorem c8_platform2subdir_closed :
    RepoData.platform2subdir "linux" = .ok "linux-64" ∧
    RepoData.platform2subdir "osx" = .ok "osx-64" ∧
    RepoData.platform2subdir "noarch" = .ok "noarch" ∧
    ∀ p : String, p ∉ (["linux", "osx", "noarch"] : List String) →
      RepoData.platform2subdir p = .error (.valueError unsupportedMsg) ∧
      ∀ (http : String → HttpResp) (channel : String),
        RepoData.fetch_repodata http channel p = ([], .error (.valueError unsupportedMsg)) := by
  refine ⟨rfl, rfl, rfl, ?_⟩
  intro p hp
  simp only [List.mem_cons, List.not_mem_nil, or_false, not_or] at hp
  obtain ⟨h1, h2, h3⟩ := hp
  have e1 : (p == "linux") = false := beq_eq_false_iff_ne.mpr h1
  have e2 : (p == "osx") = false := beq_eq_false_iff_ne.mpr h2
  have e3 : (p == "noarch") = false := beq_eq_false_iff_ne.mpr h3
  have hs : RepoData.platform2subdir p = .error (.valueError unsupportedMsg) := by
    simp [RepoData.platform2subdir, e1, e2, e3]
  refine ⟨hs, fun http channel => ?_⟩
  unfold RepoData.fetch_repodata resolve_url
  rw [hs]

/-- Witness for C8 at the concrete unsupported platform win32. -/
theorem c8_platform2subdir_closed_witness :
    RepoData.platform2subdir "win32" = .error (.valueError unsupportedMsg) ∧
    RepoData.fetch_repodata constGoodHttp "bioconda" "win32" =
      ([], .error (.valueError unsupportedMsg)) := by
  have h := c8_platform2subdir_closed.2.2.2 "win32" (by decide)
  exact ⟨h.1, h.2 constGoodHttp "bioconda"⟩

/-- C9: every record built from a (channel, platform) pair's fetched
document carries that channel and that platform, whatever the document
contains, and its subdir is the document's own `info.subdir`. -/
theorem c9_batch_stamping (c p : String) (doc : Repodata) (r : PackageRecord)
    (h : r ∈ buildBatch c p doc) :
    r.channel = c ∧ r.platform = p ∧ r.subdir = doc.info_subdir := by
  unfold buildBatch at h
  rcases List.mem_map.1 h with ⟨kv, hkv, hr⟩
  subst hr
  exact ⟨rfl, rfl, rfl⟩

/-- Witness for C9 on the concrete (bioconda, linux) batch of
`exampleDoc`, whose own subdir ("sub") differs from the requested
subdirectory linux-64. -/
theorem c9_batch_stamping_witness :
    recW ∈ buildBatch "bioconda" "linux" exampleDoc ∧
    (recW.channel = "bioconda" ∧ recW.platform = "linux" ∧
      recW.subdir = exampleDoc.info_subdir) :=
  ⟨by decide, c9_batch_stamping "bioconda" "linux" exampleDoc recW (by decide)⟩

/-- C10: for a package name absent from the table, `get_versions` returns
the empty mapping and `get_channels` (without version or build_number
constraint) returns the empty set; neither raises. -/
theorem c10_missing_name_empty (df : List PackageRecord) (nm : String)
    (h : ∀ r ∈ df, r.name ≠ nm) :
    RepoData.get_versions df nm = [] ∧ RepoData.get_channels df nm none none = [] := by
  have hf : df.filter (fun r => r.name == nm) = [] := by
    rw [List.filter_eq_nil_iff]
    intro r hr
    simp [h r hr]
  have hc : df.filter (channelsSel nm none none) = [] := by
    rw [List.filter_eq_nil_iff]
    intro r hr
    simp [channelsSel, truthy, truthyNum, h r hr]
  constructor
  · simp [RepoData.get_versions, hf]
  · simp [RepoData.get_channels, hc]

/-- Witness for C10 at a concrete table and a name not in it. -/
theorem c10_missing_name_empty_witness :
    (∀ r ∈ c6Table, r.name ≠ "zzz") ∧
    (RepoData.get_versions c6Table "zzz" = [] ∧
      RepoData.get_channels c6Table "zzz" none none = []) :=
  ⟨by decide, c10_missing_name_empty c6Table "zzz" (by decide)⟩

/-- C3: construction is claimed to return the existing instance without
rebuilding.  In the code every construction request re-runs `__init__`:
after a first successful build (identity 0), a second request does return
the same instance 0, but issues all nine configured fetches again and
rebuilds the table; and a request passing the documented `cache` argument
raises `TypeError` outright, because `__new__` accepts no argument. -/
theorem c3_second_construction_rebuilds :
    (repoDataCall ⟨0, none⟩ none constGoodHttp).2.2 = .ok (0, goodDF) ∧
    (repoDataCall (repoDataCall ⟨0, none⟩ none constGoodHttp).1 none constGoodHttp).2.2 =
      .ok (0, goodDF) ∧
    (repoDataCall (repoDataCall ⟨0, none⟩ none constGoodHttp).1 none constGoodHttp).2.1 =
      allUrls ∧
    allUrls ≠ [] ∧
    (repoDataCall ⟨0, none⟩ (some "cache.tsv") constGoodHttp).2.2 =
      .error (.typeError "new got an unexpected keyword argument cache") :=
  ⟨rfl, rfl, rfl, by decide, rfl⟩

/-- Counterexample to C4 as stated: a failed build (every fetch answers
404) aborts the construction call, but does leave a cached singleton
instance behind — `RepoData.__instance` holds the instance allocated by
`__new__` (identity 0, no table attribute), not `none`. -/
theorem c4_failed_build_leaves_cached_instance :
    (repoDataCall ⟨0, none⟩ none http404).2.2 =
      .error (.httpError 404 "Not Found"
        "https://conda.anaconda.org/conda-forge/linux-64/repodata.json") ∧
    (repoDataCall ⟨0, none⟩ none http404).1.inst = some (0, none) :=
  ⟨rfl, rfl⟩

/-- C4 (amended): when the build fails, the construction call aborts with
that error; the singleton slot keeps the instance allocated by `__new__`
(with no table set), and — because `__init__` re-runs on every
construction request — a later request performs a fresh, full build
rather than blindly reusing the partially-built instance. -/
theorem c4_fresh_build_after_failure (http http2 : String → HttpResp)
    (e : Err) (log log2 : List String) (df2 : List PackageRecord)
    (h1 : buildTable http = (log, .error e))
    (h2 : buildTable http2 = (log2, .ok df2)) :
    (repoDataCall ⟨0, none⟩ none http).2.2 = .error e ∧
    (repoDataCall ⟨0, none⟩ none http).1.inst = some (0, none) ∧
    (repoDataCall (repoDataCall ⟨0, none⟩ none http).1 none http2).2.1 = log2 ∧
    (repoDataCall (repoDataCall ⟨0, none⟩ none http).1 none http2).2.2 = .ok (0, df2) := by
  simp [repoDataCall, repoDataInitStep, h1, h2]

/-- Witness for C4 (amended) with a failing then a working HTTP layer. -/
theorem c4_fresh_build_after_failure_witness :
    (repoDataCall ⟨0, none⟩ none http404).2.2 =
      .error (.httpError 404 "Not Found"
        "https://conda.anaconda.org/conda-forge/linux-64/repodata.json") ∧
    (repoDataCall ⟨0, none⟩ none http404).1.inst = some (0, none) ∧
    (repoDataCall (repoDataCall ⟨0, none⟩ none http404).1 none constGoodHttp).2.1 =
      allUrls ∧
    (repoDataCall (repoDataCall ⟨0, none⟩ none http404).1 none constGoodHttp).2.2 =
      .ok (0, goodDF) :=
  c4_fresh_build_after_failure http404 constGoodHttp
    (.httpError 404 "Not Found"
      "https://conda.anaconda.org/conda-forge/linux-64/repodata.json")
    ["https://conda.anaconda.org/conda-forge/linux-64/repodata.json"]
    allUrls goodDF rfl rfl

/-- Counterexample to C5 as stated: reading a written cache back yields a
column list containing the pandas placeholder "Unnamed: 0" (the old row
index read back as a data column), which is not among the original
columns, so the restored column set is not identical to the original. -/
theorem c5_restored_columns_differ :
    "Unnamed: 0" ∈ (read_table (to_csv ["pkg-1.0-h0.tar.bz2"] [recW])).1 ∧
    "Unnamed: 0" ∉ df_columns ∧
    (read_table (to_csv ["pkg-1.0-h0.tar.bz2"] [recW])).1 ≠ df_columns := by
  decide

/-- Dropping the leading index field of every written row recovers the
rendered records exactly, provided index and records have equal length. -/
theorem map_tail_zipWith_cons :
    ∀ (idx : List String) (recs : List PackageRecord), idx.length = recs.length →
      (List.zipWith (fun i r => i :: renderRecord r) idx recs).map List.tail =
        recs.map renderRecord
  | [], [], _ => rfl
  | [], _ :: _, h => by simp at h
  | _ :: _, [], h => by simp at h
  | i :: is, r :: rs, h => by
      simp only [List.zipWith_cons_cons, List.map_cons, List.tail_cons]
      rw [map_tail_zipWith_cons is rs (by simpa using h)]

/-- C5 (amended): the cache round trip preserves every data column and
every row in order, but adds one column — the restored table's columns
are "Unnamed: 0" (holding the original row index) followed by the
original columns, and each restored row is the original row prefixed by
its index key, so dropping that first field recovers the original rows
exactly. -/
theorem c5_cache_roundtrip_amended (idx : List String) (recs : List PackageRecord)
    (h : idx.length = recs.length) :
    (read_table (to_csv idx recs)).1 = "Unnamed: 0" :: df_columns ∧
    (read_table (to_csv idx recs)).2 =
      List.zipWith (fun i r => i :: renderRecord r) idx recs ∧
    ((read_table (to_csv idx recs)).2).map List.tail = recs.map renderRecord :=
  ⟨rfl, rfl, map_tail_zipWith_cons idx recs h⟩

/-- Witness for C5 (amended) on a concrete two-row table. -/
theorem c5_cache_roundtrip_amended_witness :
    (["k0", "k1"] : List String).length = c6Table.length ∧
    ((read_table (to_csv ["k0", "k1"] c6Table)).1 = "Unnamed: 0" :: df_columns ∧
     (read_table (to_csv ["k0", "k1"] c6Table)).2 =
       List.zipWith (fun i r => i :: renderRecord r) ["k0", "k1"] c6Table ∧
     ((read_table (to_csv ["k0", "k1"] c6Table)).2).map List.tail =
       c6Table.map renderRecord) :=
  ⟨rfl, c5_cache_roundtrip_amended ["k0", "k1"] c6Table rfl⟩

/-- `channelsSel` holds exactly when the name matches and every provided
truthy constraint matches (a provided empty version or zero build_number
constrains nothing, mirroring `if version:` and `if build_number:`). -/
theorem channelsSel_iff (nm : String) (v : Option String) (bn : Option Nat)
    (r : PackageRecord) :
    channelsSel nm v bn r = true ↔
      (r.name = nm ∧ (∀ s, v = some s → s ≠ "" → r.version = s) ∧
       (∀ b, bn = some b → b ≠ 0 → r.build_number = b)) := by
  unfold channelsSel truthy truthyNum
  cases v with
  | none =>
      cases bn with
      | none => simp
      | some b => by_cases hb : b = 0 <;> simp [hb]
  | some s =>
      by_cases hs : s = ""
      · cases bn with
        | none => simp [hs]
        | some b => by_cases hb : b = 0 <;> simp [hs, hb]
      · cases bn with
        | none => simp [hs]
        | some b => by_cases hb : b = 0 <;> simp [hs, hb, and_assoc]

/-- Membership in the result of `get_channels` is witnessed by a matching
row. -/
theorem mem_get_channels (df : List PackageRecord) (nm : String) (v : Option String)
    (bn : Option Nat) (c : String) :
    c ∈ RepoData.get_channels df nm v bn ↔
      ∃ r, r ∈ df ∧ channelsSel nm v bn r = true ∧ r.channel = c := by
  unfold RepoData.get_channels
  simp only [List.mem_dedup, List.mem_map, List.mem_filter]
  constructor
  · rintro ⟨r, ⟨hd, hsel⟩, hch⟩
    exact ⟨r, hd, hsel, hch⟩
  · rintro ⟨r, hd, hsel, hch⟩
    exact ⟨r, ⟨hd, hsel⟩, hch⟩

/-- Counterexample to C6 as stated: with a provided build_number of 0 the
claimed behavior keeps only the build-0 row, but `if build_number:` is
false at 0, so the code ignores the constraint and returns the channels
of both builds. -/
theorem c6_build_number_zero_ignored :
    RepoData.get_channels c6Table "p" none (some 0) = ["bioconda", "conda-forge"] ∧
    get_channels_claimed c6Table "p" none (some 0) = ["bioconda"] ∧
    RepoData.get_channels c6Table "p" none (some 0) ≠
      get_channels_claimed c6Table "p" none (some 0) := by
  decide

/-- C6 (amended): `get_channels` returns exactly the set (duplicate-free)
of channels of the rows matching the name and every provided truthy
constraint; an absent constraint — and likewise a provided version equal
to the empty string or a provided build_number equal to 0, which Python
truthiness treats as absent — imposes no restriction. -/
theorem c6_get_channels_characterization (df : List PackageRecord) (nm : String)
    (v : Option String) (bn : Option Nat) :
    (∀ c, c ∈ RepoData.get_channels df nm v bn ↔
      ∃ r, r ∈ df ∧ r.name = nm ∧
        (∀ s, v = some s → s ≠ "" → r.version = s) ∧
        (∀ b, bn = some b → b ≠ 0 → r.build_number = b) ∧
        r.channel = c) ∧
    (RepoData.get_channels df nm v bn).Nodup := by
  refine ⟨fun c => ?_, List.nodup_dedup _⟩
  rw [mem_get_channels]
  constructor
  · rintro ⟨r, hd, hsel, hch⟩
    obtain ⟨ha, hb, hc⟩ := (channelsSel_iff nm v bn r).1 hsel
    exact ⟨r, hd, ha, hb, hc, hch⟩
  · rintro ⟨r, hd, ha, hb, hc, hch⟩
    exact ⟨r, hd, (channelsSel_iff nm v bn r).2 ⟨ha, hb, hc⟩, hch⟩

/-- If the fetch of a configured pair cannot succeed, the whole build
loop cannot produce a table. -/
theorem buildTableAux_not_ok (http : String → HttpResp) (c p : String)
    (hfe : ∀ doc, (RepoData.fetch_repodata http c p).2 ≠ .ok doc) :
    ∀ pairs : List (String × String), (c, p) ∈ pairs →
      ∀ df, (buildTableAux http pairs).2 ≠ .ok df := by
  intro pairs
  induction pairs with
  | nil => intro h; cases h
  | cons hd tl ih =>
      obtain ⟨c0, p0⟩ := hd
      intro hmem df hok
      unfold buildTableAux at hok
      rcases hfetch : RepoData.fetch_repodata http c0 p0 with ⟨log, res⟩
      rw [hfetch] at hok
      cases res with
      | error e => simp at hok
      | ok doc =>
          rcases hrec : buildTableAux http tl with ⟨log2, res2⟩
          rw [hrec] at hok
          cases res2 with
          | error e => simp at hok
          | ok dfs =>
              rcases List.mem_cons.1 hmem with heq | hmem'
              · rw [Prod.mk.injEq] at heq
                obtain ⟨rfl, rfl⟩ := heq
                exact hfe doc (by rw [hfetch])
              · exact ih hmem' dfs (by rw [hrec])

/-- A construction request that returns an instance with a table did run
a successful build. -/
theorem repoDataCall_ok_build (st : RState) (http : String → HttpResp) (i : Nat)
    (df : List PackageRecord)
    (h : (repoDataCall st none http).2.2 = .ok (i, df)) :
    (buildTable http).2 = .ok df := by
  rcases hb : buildTable http with ⟨log, res⟩
  cases res with
  | error e =>
      exfalso
      unfold repoDataCall at h
      cases hst : st.inst with
      | none =>
          rw [hst] at h
          unfold repoDataInitStep at h
          rw [hb] at h
          simp at h
      | some v =>
          obtain ⟨i0, d0⟩ := v
          rw [hst] at h
          unfold repoDataInitStep at h
          rw [hb] at h
          simp at h
  | ok df0 =>
      unfold repoDataCall at h
      cases hst : st.inst with
      | none =>
          rw [hst] at h
          unfold repoDataInitStep at h
          rw [hb] at h
          simp only [Except.ok.injEq, Prod.mk.injEq] at h
          simp [h.2]
      | some v =>
          obtain ⟨i0, d0⟩ := v
          rw [hst] at h
          unfold repoDataInitStep at h
          rw [hb] at h
          simp only [Except.ok.injEq, Prod.mk.injEq] at h
          simp [h.2]

/-- C7: a fetch whose response status is not 200 returns the `HTTPError`
carrying the status code, the reason text and the resolved URL after
requesting exactly that URL; and if the failing pair is among the
configured pairs, no construction request against that HTTP layer can
yield an instance. -/
theorem c7_fetch_failed_aborts (http : String → HttpResp) (channel platform url : String)
    (hurl : resolve_url channel platform = .ok url)
    (hst : (http url).status_code ≠ 200) :
    RepoData.fetch_repodata http channel platform =
      ([url], .error (.httpError (http url).status_code (http url).reason url)) ∧
    ((channel, platform) ∈ configPairs →
      ∀ (st : RState) (i : Nat) (df : List PackageRecord),
        (repoDataCall st none http).2.2 ≠ .ok (i, df)) := by
  have hfetch : RepoData.fetch_repodata http channel platform =
      ([url], .error (.httpError (http url).status_code (http url).reason url)) := by
    unfold RepoData.fetch_repodata
    rw [hurl]
    simp [hst]
  refine ⟨hfetch, fun hmem st i df hok => ?_⟩
  have hb := repoDataCall_ok_build st http i df hok
  exact buildTableAux_not_ok http channel platform
    (fun doc hd => by rw [hfetch] at hd; simp at hd) configPairs hmem df hb

/-- Witness for C7 at a concrete 404 response for (bioconda, linux). -/
theorem c7_fetch_failed_aborts_witness :
    RepoData.fetch_repodata http404 "bioconda" "linux" =
      (["https://conda.anaconda.org/bioconda/linux-64/repodata.json"],
        .error (.httpError 404 "Not Found"
          "https://conda.anaconda.org/bioconda/linux-64/repodata.json")) ∧
    (repoDataCall ⟨0, none⟩ none http404).2.2 ≠ .ok (0, goodDF) := by
  have h := c7_fetch_failed_aborts http404 "bioconda" "linux"
    "https://conda.anaconda.org/bioconda/linux-64/repodata.json" rfl (by decide)
  exact ⟨h.1, h.2 (by decide) ⟨0, none⟩ 0 goodDF⟩
